import Mathlib

/-!
Verification of the parking-lot service (`src/app.py`).

Modelling conventions for the shallow embedding:
* Instants (`datetime`) and durations (`timedelta`) are integers counting
  microseconds, the resolution of Python's `datetime`.
* `timedelta.total_seconds()` returns the value `microseconds / 10^6`; we
  model it in `ℚ` (every charge the program can produce is an exact
  multiple of 2.50, so binary floating-point rounding never occurs and the
  rational model is exact).
* Python `//` and `%` on integers with a positive divisor are `Int.ediv`
  and `Int.emod`; Python `int(float)` truncates toward zero (`Int.tdiv`
  on exact values).
* The global dict `parking_tickets` is a map `String → Option Ticket`;
  `dict.get` is application, assignment and `del` are pointwise updates.
* The non-deterministic inputs of a handler call (the `uuid.uuid4()` draw
  and `datetime.now()`) are passed as explicit parameters.
* Flask handlers return `jsonify(body), status`; we model a response as
  `ℕ × Body` (status, body) together with the store after the call.
* A query parameter is an `Option String` (`none` = absent).  Python's
  truthiness test `not s` on `request.args.get(k)` is true exactly when
  the parameter is absent or the empty string, i.e. `(o.getD "").isEmpty`.
-/

/-- Constant `HOURLY_RATE = 10.00` from `app.py` (exact in binary floating point). -/
def HOURLY_RATE : ℚ := 10

/-- Model of `timedelta.total_seconds()`: the duration, given in microseconds,
as an exact number of seconds. -/
def total_seconds (micros : ℤ) : ℚ := (micros : ℚ) / 1000000

/-- The 15-minute increment count computed inside `calculate_charge`:
`math.ceil(total_minutes / 15)` where `total_minutes = total_seconds / 60`. -/
def bucket_increments (micros : ℤ) : ℤ :=
  ⌈(total_seconds micros / 60) / 15⌉

/-- Model of `calculate_charge(entry_time, exit_time)` from `app.py`: returns the
pair `(charge, duration)` where `duration = exit_time - entry_time` (in
microseconds) and `charge = increments * (HOURLY_RATE / 4)`. -/
def calculate_charge (entry_time exit_time : ℤ) : ℚ × ℤ :=
  let duration := exit_time - entry_time
  (bucket_increments duration * (HOURLY_RATE / 4), duration)

/-- Model of `format_duration(duration)` from `app.py`:
`total_seconds = int(duration.total_seconds())` truncates toward zero,
then hours/minutes/seconds by Python floor-division `//` and mod `%`. -/
def format_duration (micros : ℤ) : String :=
  let ts := Int.tdiv micros 1000000
  let hours := Int.ediv ts 3600
  let minutes := Int.ediv (Int.emod ts 3600) 60
  let seconds := Int.emod ts 60
  toString hours ++ " hours, " ++ toString minutes ++ " minutes, "
    ++ toString seconds ++ " seconds"

/-- The f-string `f"${charge:.2f}"` of `app.py`, rendered exactly.  Every
charge the program produces is an integral multiple of 2.50, hence an exact
number of cents, so the float formatting never rounds and the exact decimal
rendering below coincides with it. -/
def chargeString (q : ℚ) : String :=
  let cents : ℤ := ⌊q * 100⌋
  let n : ℕ := cents.natAbs
  "$" ++ (if cents < 0 then "-" else "")
    ++ toString (n / 100) ++ "."
    ++ (if n % 100 < 10 then "0" else "") ++ toString (n % 100)

/-- The record stored in `parking_tickets[ticket_id]`:
`{'plate': ..., 'parkingLot': ..., 'entryTime': ...}`. -/
structure Ticket where
  plate : String
  parkingLot : String
  entryTime : ℤ
deriving DecidableEq

/-- The global dict `parking_tickets`, as a lookup function. -/
abbrev Store := String → Option Ticket

/-- Initial table: `parking_tickets = {}` at process start. -/
def emptyStore : Store := fun _ => none

/-- Assignment `parking_tickets[k] = v` (overwrites any previous binding of `k`). -/
def store_set (s : Store) (k : String) (v : Ticket) : Store :=
  fun k2 => if k2 = k then some v else s k2

/-- Deletion `del parking_tickets[k]`. -/
def store_del (s : Store) (k : String) : Store :=
  fun k2 => if k2 = k then none else s k2

/-- Body of a `/entry` response: `{"ticketId": ...}` or `{"error": ...}`. -/
inductive EntryBody where
  | ok (ticketId : String)
  | error (msg : String)
deriving DecidableEq

/-- Body of a `/exit` response: the success object or `{"error": ...}`. -/
inductive ExitBody where
  | success (licensePlate totalParkedTime parkingLotId charge : String)
  | error (msg : String)
deriving DecidableEq

/-- Model of `vehicle_entry` from `app.py`.  `plate`/`parkingLot` are the query
parameters, `fresh_uuid` the `str(uuid.uuid4())` draw, `now` the
`datetime.now()` reading.  Returns the `(status, body)` response and the
store after the call. -/
def vehicle_entry (plate parkingLot : Option String) (fresh_uuid : String)
    (now : ℤ) (store : Store) : (ℕ × EntryBody) × Store :=
  let p := plate.getD ""
  let lot := parkingLot.getD ""
  if p.isEmpty || lot.isEmpty then
    ((400, EntryBody.error "Missing \x27plate\x27 or \x27parkingLot\x27 query parameter"), store)
  else
    ((200, EntryBody.ok fresh_uuid),
      store_set store fresh_uuid { plate := p, parkingLot := lot, entryTime := now })

/-- Model of `vehicle_exit` from `app.py`.  `ticketId` is the query parameter and
`now` the `datetime.now()` reading at exit. -/
def vehicle_exit (ticketId : Option String) (now : ℤ) (store : Store) :
    (ℕ × ExitBody) × Store :=
  let t := ticketId.getD ""
  if t.isEmpty then
    ((400, ExitBody.error "Missing \x27ticketId\x27 query parameter"), store)
  else
    match store t with
    | none => ((404, ExitBody.error "Invalid or expired ticket ID"), store)
    | some info =>
      let cd := calculate_charge info.entryTime now
      ((200, ExitBody.success info.plate (format_duration cd.2) info.parkingLot
          (chargeString cd.1)),
        store_del store t)

/-- One HTTP request to the service, together with the non-deterministic
inputs (`uuid4` draw, `datetime.now()`) consumed while handling it. -/
inductive Event where
  | entry (plate parkingLot : Option String) (fresh_uuid : String) (now : ℤ)
  | exit (ticketId : Option String) (now : ℤ)

/-- The effect of one request on the ticket table. -/
def stepStore (s : Store) : Event → Store
  | .entry p l u now => (vehicle_entry p l u now s).2
  | .exit t now => (vehicle_exit t now s).2

/-- The ticket table after a sequence of requests. -/
def runEvents (s : Store) : List Event → Store
  | [] => s
  | e :: es => runEvents (stepStore s e) es

/-- Predicate `issuesId t e` holds when the request `e` is an `/entry` that stores a
ticket under id `t`: an entry event whose `uuid4` draw is `t` and whose two
parameters pass the truthiness check. -/
def issuesId (t : String) : Event → Bool
  | .entry p l u _ => u = t && !(p.getD "").isEmpty && !(l.getD "").isEmpty
  | .exit _ _ => false

/-- The spec's billing formula, written from its words: with `d` the
duration in minutes, `amount = ceil(d / 15) * (hourlyRate / 4)`. -/
def spec_amount (entry_time exit_time : ℤ) : ℚ :=
  ⌈(((exit_time - entry_time : ℤ) : ℚ) / 60000000) / 15⌉ * (HOURLY_RATE / 4)

section Helpers

theorem isEmpty_eq_false {s : String} (h : s ≠ "") : s.isEmpty = false := by
  cases hb : s.isEmpty
  · rfl
  · exact absurd ((String.isEmpty_iff s).1 hb) h

/-- A request that does not issue a ticket under id `t` either leaves the
table's binding of `t` alone or deletes it. -/
theorem stepStore_lookup (t : String) (e : Event) (s : Store)
    (h : issuesId t e = false) :
    stepStore s e t = s t ∨ stepStore s e t = none := by
  cases e with
  | entry p l u now =>
    by_cases hv : ((p.getD "").isEmpty || (l.getD "").isEmpty)
    · left
      simp only [stepStore, vehicle_entry]
      rw [if_pos hv]
    · by_cases hu : t = u
      · exfalso
        subst hu
        simp only [Bool.or_eq_true, not_or, Bool.not_eq_true] at hv
        simp [issuesId, hv.1, hv.2] at h
      · left
        simp only [stepStore, vehicle_entry]
        rw [if_neg hv]
        simp [store_set, hu]
  | exit tid now =>
    simp only [stepStore, vehicle_exit]
    by_cases he : (tid.getD "").isEmpty
    · left; rw [if_pos he]
    · rw [if_neg he]
      cases hs : s (tid.getD "") with
      | none => left; simp
      | some info =>
        simp only [store_del]
        by_cases ht : t = tid.getD ""
        · right; simp [ht]
        · left; simp [ht]

/-- Over any run containing no entry that issues id `t`, the binding of
`t` is either untouched or deleted. -/
theorem runEvents_lookup (t : String) (evs : List Event) (s : Store)
    (h : ∀ e ∈ evs, issuesId t e = false) :
    runEvents s evs t = s t ∨ runEvents s evs t = none := by
  induction evs generalizing s with
  | nil => left; rfl
  | cons e es ih =>
    have h1 : issuesId t e = false := h e (List.mem_cons_self e es)
    have h2 : ∀ x ∈ es, issuesId t x = false :=
      fun x hx => h x (List.mem_cons_of_mem e hx)
    have hrun : runEvents s (e :: es) = runEvents (stepStore s e) es := rfl
    rcases ih (stepStore s e) h2 with hr | hr
    · rcases stepStore_lookup t e s h1 with hs | hs
      · left; rw [hrun, hr, hs]
      · right; rw [hrun, hr, hs]
    · right; rw [hrun]; exact hr

/-- If `t` is unbound it stays unbound over such a run. -/
theorem runEvents_lookup_none (t : String) (evs : List Event) (s : Store)
    (h : ∀ e ∈ evs, issuesId t e = false) (h0 : s t = none) :
    runEvents s evs t = none := by
  rcases runEvents_lookup t evs s h with hr | hr
  · rw [hr, h0]
  · exact hr

/-- Evaluation of `vehicle_exit` on a missing ticket id. -/
theorem vehicle_exit_not_found (t : String) (ht : t ≠ "") (now : ℤ)
    (s : Store) (h : s t = none) :
    vehicle_exit (some t) now s
      = ((404, ExitBody.error "Invalid or expired ticket ID"), s) := by
  simp only [vehicle_exit, Option.getD_some]
  rw [if_neg (by simp [isEmpty_eq_false ht]), h]

/-- Evaluation of `vehicle_exit` on a ticket id bound to `info`. -/
theorem vehicle_exit_found (t : String) (ht : t ≠ "") (now : ℤ)
    (s : Store) (info : Ticket) (h : s t = some info) :
    vehicle_exit (some t) now s
      = ((200, ExitBody.success info.plate
            (format_duration ((calculate_charge info.entryTime now).2))
            info.parkingLot
            (chargeString ((calculate_charge info.entryTime now).1))),
          store_del s t) := by
  simp only [vehicle_exit, Option.getD_some]
  rw [if_neg (by simp [isEmpty_eq_false ht]), h]

/-- Inversion: a 200 from `/exit` means the id was non-empty and bound. -/
theorem vehicle_exit_200 (t : String) (now : ℤ) (s : Store)
    (h : (vehicle_exit (some t) now s).1.1 = 200) :
    t ≠ "" ∧ ∃ info, s t = some info := by
  by_cases ht : t = ""
  · subst ht
    have h400 : (vehicle_exit (some "") now s).1.1 = 400 := rfl
    rw [h400] at h
    exact absurd h (by decide)
  · refine ⟨ht, ?_⟩
    cases hs : s t with
    | none =>
      rw [vehicle_exit_not_found t ht now s hs] at h
      simp at h
    | some info => exact ⟨info, rfl⟩

/-- The store after a 200 from `/exit` is the old one minus the ticket. -/
theorem vehicle_exit_200_store (t : String) (now : ℤ) (s : Store)
    (h : (vehicle_exit (some t) now s).1.1 = 200) :
    (vehicle_exit (some t) now s).2 = store_del s t := by
  obtain ⟨ht, info, hinfo⟩ := vehicle_exit_200 t now s h
  rw [vehicle_exit_found t ht now s info hinfo]

/-- Valid `/entry` requests always succeed and store the record. -/
theorem vehicle_entry_ok (p l u : String) (hp : p ≠ "") (hl : l ≠ "")
    (now : ℤ) (s : Store) :
    vehicle_entry (some p) (some l) u now s
      = ((200, EntryBody.ok u),
          store_set s u { plate := p, parkingLot := l, entryTime := now }) := by
  simp only [vehicle_entry, Option.getD_some]
  rw [if_neg (by simp [isEmpty_eq_false hp, isEmpty_eq_false hl])]

end Helpers

section ChargeEval

theorem chargeString_five : chargeString 5 = "$5.00" := by
  have h : (⌊(5 : ℚ) * 100⌋ : ℤ) = 500 := by
    rw [Int.floor_eq_iff]; norm_num
  simp only [chargeString, h]
  decide

theorem chargeString_two_fifty : chargeString (5 / 2) = "$2.50" := by
  have h : (⌊(5 / 2 : ℚ) * 100⌋ : ℤ) = 250 := by
    rw [Int.floor_eq_iff]; norm_num
  simp only [chargeString, h]
  decide

theorem chargeString_zero : chargeString 0 = "$0.00" := by
  have h : (⌊(0 : ℚ) * 100⌋ : ℤ) = 0 := by
    rw [Int.floor_eq_iff]; norm_num
  simp only [chargeString, h]
  decide

end ChargeEval

/-- C1: for a non-negative elapsed duration, `calculate_charge` returns
`ceil(d / 15) * (hourlyRate / 4)` where `d` is the duration in minutes;
with the default rate 10.00 a 16-minute stay costs $5.00 and a 15-minute
stay costs $2.50. -/
theorem charge_is_ceil_buckets_times_quarter_rate (entry_time exit_time : ℤ)
    (h : entry_time ≤ exit_time) :
    (calculate_charge entry_time exit_time).1 = spec_amount entry_time exit_time
    ∧ (calculate_charge 0 (16 * 60 * 1000000)).1 = 5
    ∧ chargeString ((calculate_charge 0 (16 * 60 * 1000000)).1) = "$5.00"
    ∧ (calculate_charge 0 (15 * 60 * 1000000)).1 = 5 / 2
    ∧ chargeString ((calculate_charge 0 (15 * 60 * 1000000)).1) = "$2.50" := by
  have key : ∀ a : ℚ, a / 1000000 / 60 = a / 60000000 := by
    intro a; rw [div_div]; norm_num
  have e16 : (calculate_charge 0 (16 * 60 * 1000000)).1 = 5 := by
    have hb : bucket_increments 960000000 = 2 := by
      norm_num [bucket_increments, total_seconds, Int.ceil_eq_iff]
    norm_num [calculate_charge, hb, HOURLY_RATE]
  have e15 : (calculate_charge 0 (15 * 60 * 1000000)).1 = 5 / 2 := by
    have hb : bucket_increments 900000000 = 1 := by
      norm_num [bucket_increments, total_seconds, Int.ceil_eq_iff]
    norm_num [calculate_charge, hb, HOURLY_RATE]
  refine ⟨?_, e16, by rw [e16]; exact chargeString_five, e15,
    by rw [e15]; exact chargeString_two_fifty⟩
  simp only [calculate_charge, bucket_increments, total_seconds, spec_amount]
  rw [key]

theorem charge_is_ceil_buckets_times_quarter_rate_witness :
    (calculate_charge 0 960000000).1 = spec_amount 0 960000000 :=
  (charge_is_ceil_buckets_times_quarter_rate 0 960000000 (by decide)).1

/-- C3: a zero-length stay yields `ceil(0/15) = 0` buckets and a charge
of $0.00. -/
theorem zero_duration_zero_buckets_zero_charge (t : ℤ) :
    bucket_increments ((calculate_charge t t).2) = 0
    ∧ (calculate_charge t t).1 = 0
    ∧ chargeString ((calculate_charge t t).1) = "$0.00" := by
  have hd : (calculate_charge t t).2 = 0 := by simp [calculate_charge]
  have hb : bucket_increments 0 = 0 := by
    norm_num [bucket_increments, total_seconds]
  have hc : (calculate_charge t t).1 = 0 := by
    simp [calculate_charge, hb]
  exact ⟨by rw [hd]; exact hb, hc, by rw [hc]; exact chargeString_zero⟩

/-- C5: `format_duration` renders `"{s // 3600} hours, {(s % 3600) // 60}
minutes, {s % 60} seconds"` where `s` is the integer total seconds of the
interval, truncated toward zero; 3661 seconds render as
"1 hours, 1 minutes, 1 seconds". -/
theorem format_duration_components (micros : ℤ) :
    format_duration micros
      = toString (Int.ediv (Int.tdiv micros 1000000) 3600) ++ " hours, "
        ++ toString (Int.ediv (Int.emod (Int.tdiv micros 1000000) 3600) 60)
        ++ " minutes, "
        ++ toString (Int.emod (Int.tdiv micros 1000000) 60) ++ " seconds"
    ∧ format_duration (3661 * 1000000) = "1 hours, 1 minutes, 1 seconds" :=
  ⟨rfl, by decide⟩

/-- C6: for a fixed entry time the charge is monotone in the exit time. -/
theorem charge_monotone_in_exit_time (entry_time e1 e2 : ℤ) (h : e1 ≤ e2) :
    (calculate_charge entry_time e1).1 ≤ (calculate_charge entry_time e2).1 := by
  simp only [calculate_charge, HOURLY_RATE]
  have hq : ((e1 - entry_time : ℤ) : ℚ) ≤ ((e2 - entry_time : ℤ) : ℚ) := by
    exact_mod_cast sub_le_sub_right h entry_time
  have hc : bucket_increments (e1 - entry_time)
      ≤ bucket_increments (e2 - entry_time) := by
    simp only [bucket_increments, total_seconds]
    exact Int.ceil_le_ceil (by gcongr)
  have hc2 : ((bucket_increments (e1 - entry_time) : ℤ) : ℚ)
      ≤ ((bucket_increments (e2 - entry_time) : ℤ) : ℚ) := by exact_mod_cast hc
  exact mul_le_mul_of_nonneg_right hc2 (by norm_num)

theorem charge_monotone_in_exit_time_witness :
    (calculate_charge 0 0).1 ≤ (calculate_charge 0 960000000).1 :=
  charge_monotone_in_exit_time 0 0 960000000 (by decide)

/-- C2: `/exit` with a ticket id that is unbound, never issued over a run,
or already consumed by a successful `/exit` (and not re-issued since),
returns 404 with `{error: "Invalid or expired ticket ID"}` and leaves the
table unchanged. -/
theorem exit_unknown_or_consumed_404 :
    (∀ (t : String) (now : ℤ) (s : Store), t ≠ "" → s t = none →
      vehicle_exit (some t) now s
        = ((404, ExitBody.error "Invalid or expired ticket ID"), s))
    ∧ (∀ (t : String) (evs : List Event) (now : ℤ), t ≠ "" →
      (∀ e ∈ evs, issuesId t e = false) →
      vehicle_exit (some t) now (runEvents emptyStore evs)
        = ((404, ExitBody.error "Invalid or expired ticket ID"),
            runEvents emptyStore evs))
    ∧ (∀ (t : String) (s : Store) (now1 now2 : ℤ) (evs : List Event),
      (∀ e ∈ evs, issuesId t e = false) →
      (vehicle_exit (some t) now1 s).1.1 = 200 →
      vehicle_exit (some t) now2
          (runEvents ((vehicle_exit (some t) now1 s).2) evs)
        = ((404, ExitBody.error "Invalid or expired ticket ID"),
            runEvents ((vehicle_exit (some t) now1 s).2) evs)) := by
  refine ⟨?_, ?_, ?_⟩
  · exact fun t now s ht h => vehicle_exit_not_found t ht now s h
  · intro t evs now ht hf
    exact vehicle_exit_not_found t ht now _
      (runEvents_lookup_none t evs emptyStore hf rfl)
  · intro t s now1 now2 evs hf h200
    obtain ⟨ht, info, hinfo⟩ := vehicle_exit_200 t now1 s h200
    have hnone : (vehicle_exit (some t) now1 s).2 t = none := by
      rw [vehicle_exit_200_store t now1 s h200]
      simp [store_del]
    exact vehicle_exit_not_found t ht now2 _
      (runEvents_lookup_none t evs _ hf hnone)

theorem exit_unknown_or_consumed_404_witness :
    vehicle_exit (some "t1") 0 (runEvents emptyStore [])
      = ((404, ExitBody.error "Invalid or expired ticket ID"),
          runEvents emptyStore []) :=
  exit_unknown_or_consumed_404.2.1 "t1" [] 0 (by decide) (by simp)

/-- C4: a 200 from `/exit` removes exactly the ticket with the given id
(which was present) and leaves every other binding unchanged; a 400 or 404
leaves the table unchanged. -/
theorem exit_frame_effect (tid : Option String) (now : ℤ) (s : Store) :
    ((vehicle_exit tid now s).1.1 = 200 →
      ((s (tid.getD "")).isSome = true
        ∧ ∀ k, (vehicle_exit tid now s).2 k
            = if k = tid.getD "" then none else s k))
    ∧ (((vehicle_exit tid now s).1.1 = 400
        ∨ (vehicle_exit tid now s).1.1 = 404) →
      (vehicle_exit tid now s).2 = s) := by
  constructor
  · intro h200
    cases tid with
    | none =>
      exfalso
      have h400 : (vehicle_exit none now s).1.1 = 400 := rfl
      rw [h400] at h200
      exact absurd h200 (by decide)
    | some t =>
      obtain ⟨ht, info, hinfo⟩ := vehicle_exit_200 t now s h200
      refine ⟨by simp [hinfo], fun k => ?_⟩
      rw [vehicle_exit_200_store t now s h200]
      simp [store_del]
  · intro herr
    cases tid with
    | none => rfl
    | some t =>
      by_cases ht : t = ""
      · subst ht; rfl
      · cases hs : s t with
        | none => rw [vehicle_exit_not_found t ht now s hs]
        | some info =>
          exfalso
          rw [vehicle_exit_found t ht now s info hs] at herr
          simp at herr

theorem exit_frame_effect_witness :
    (vehicle_exit (some "abc") 10
        (store_set emptyStore "abc"
          { plate := "p", parkingLot := "l", entryTime := 0 })).2 "abc"
      = if "abc" = (some "abc").getD "" then none
        else (store_set emptyStore "abc"
          { plate := "p", parkingLot := "l", entryTime := 0 }) "abc" :=
  ((exit_frame_effect (some "abc") 10
      (store_set emptyStore "abc"
        { plate := "p", parkingLot := "l", entryTime := 0 })).1
    (by decide)).2 "abc"

/-- C7: `/entry` missing `plate` or `parkingLot` returns 400 with the
specified error body and changes nothing; `/exit` missing `ticketId`
returns 400 with its missing-parameter body; no 200 is produced. -/
theorem missing_param_400 :
    (∀ (lot : Option String) (u : String) (now : ℤ) (s : Store),
      vehicle_entry none lot u now s
        = ((400, EntryBody.error
            "Missing \x27plate\x27 or \x27parkingLot\x27 query parameter"), s))
    ∧ (∀ (pl : Option String) (u : String) (now : ℤ) (s : Store),
      vehicle_entry pl none u now s
        = ((400, EntryBody.error
            "Missing \x27plate\x27 or \x27parkingLot\x27 query parameter"), s))
    ∧ (∀ (now : ℤ) (s : Store),
      vehicle_exit none now s
        = ((400, ExitBody.error "Missing \x27ticketId\x27 query parameter"), s)) := by
  refine ⟨fun lot u now s => rfl, fun pl u now s => ?_, fun now s => rfl⟩
  have he : ("" : String).isEmpty = true := rfl
  simp [vehicle_entry, he]

/-- C10: a query parameter present but equal to the empty string is
treated exactly like an absent one: `/entry` with `plate=""` or
`parkingLot=""` returns the 400 missing-parameter body, and `/exit` with
`ticketId=""` returns the 400 missing-parameter error (never the 404
unknown-ticket error). -/
theorem empty_param_treated_as_missing :
    (∀ (lot : Option String) (u : String) (now : ℤ) (s : Store),
      vehicle_entry (some "") lot u now s
        = ((400, EntryBody.error
            "Missing \x27plate\x27 or \x27parkingLot\x27 query parameter"), s))
    ∧ (∀ (pl : Option String) (u : String) (now : ℤ) (s : Store),
      vehicle_entry pl (some "") u now s
        = ((400, EntryBody.error
            "Missing \x27plate\x27 or \x27parkingLot\x27 query parameter"), s))
    ∧ (∀ (now : ℤ) (s : Store),
      vehicle_exit (some "") now s
        = ((400, ExitBody.error "Missing \x27ticketId\x27 query parameter"), s)) := by
  refine ⟨fun lot u now s => rfl, fun pl u now s => ?_, fun now s => rfl⟩
  have he : ("" : String).isEmpty = true := rfl
  simp [vehicle_entry, he]

/-- C8: a ticket created by a valid `/entry` with plate `p` and lot `l`
round-trips: any later successful `/exit` with its id (the id not having
been re-issued in between) reports `licensePlate = p` and
`parkingLotId = l`. -/
theorem entry_exit_roundtrip (p l u : String) (t0 : ℤ) (s : Store)
    (evs : List Event) (now : ℤ) (hp : p ≠ "") (hl : l ≠ "")
    (hfresh : ∀ e ∈ evs, issuesId u e = false) :
    (vehicle_exit (some u) now
        (runEvents ((vehicle_entry (some p) (some l) u t0 s).2) evs)).1.1 = 200 →
    ∃ d c, (vehicle_exit (some u) now
        (runEvents ((vehicle_entry (some p) (some l) u t0 s).2) evs)).1.2
      = ExitBody.success p d l c := by
  intro h200
  set s1 := (vehicle_entry (some p) (some l) u t0 s).2 with hs1
  obtain ⟨hu, info, hinfo⟩ := vehicle_exit_200 u now (runEvents s1 evs) h200
  have hstore : s1 u = some ⟨p, l, t0⟩ := by
    rw [hs1, vehicle_entry_ok p l u hp hl t0 s]
    simp [store_set]
  rcases runEvents_lookup u evs s1 hfresh with hr | hr
  · have hi2 : runEvents s1 evs u = some (⟨p, l, t0⟩ : Ticket) := by
      rw [hr, hstore]
    refine ⟨format_duration ((calculate_charge t0 now).2),
      chargeString ((calculate_charge t0 now).1), ?_⟩
    rw [vehicle_exit_found u hu now _ _ hi2]
  · rw [hr] at hinfo
    simp at hinfo

theorem entry_exit_roundtrip_witness :
    ∃ d c, (vehicle_exit (some "u1") 900000000
        (runEvents ((vehicle_entry (some "p") (some "l") "u1" 0 emptyStore).2)
          [])).1.2
      = ExitBody.success "p" d "l" c :=
  entry_exit_roundtrip "p" "l" "u1" 0 emptyStore [] 900000000
    (by decide) (by decide) (by simp) (by decide)

/-- C9: every valid `/entry` succeeds, returning the freshly drawn id and
storing the record under it; distinct `uuid4` draws yield distinct
returned ticket ids.  (The id-uniqueness invariant of the table is
structural in the map model: a dict binds each key at most once.) -/
theorem entry_succeeds_and_ids_unique :
    (∀ (p l u : String) (now : ℤ) (s : Store), p ≠ "" → l ≠ "" →
      vehicle_entry (some p) (some l) u now s
        = ((200, EntryBody.ok u),
            store_set s u { plate := p, parkingLot := l, entryTime := now }))
    ∧ (∀ (p1 l1 u1 : String) (now1 : ℤ) (s1 : Store)
        (p2 l2 u2 : String) (now2 : ℤ) (s2 : Store),
        p1 ≠ "" → l1 ≠ "" → p2 ≠ "" → l2 ≠ "" → u1 ≠ u2 →
        (vehicle_entry (some p1) (some l1) u1 now1 s1).1.2
          ≠ (vehicle_entry (some p2) (some l2) u2 now2 s2).1.2) := by
  constructor
  · exact fun p l u now s hp hl => vehicle_entry_ok p l u hp hl now s
  · intro p1 l1 u1 now1 s1 p2 l2 u2 now2 s2 hp1 hl1 hp2 hl2 hu
    rw [vehicle_entry_ok p1 l1 u1 hp1 hl1 now1 s1,
      vehicle_entry_ok p2 l2 u2 hp2 hl2 now2 s2]
    simp [hu]

theorem entry_succeeds_and_ids_unique_witness :
    vehicle_entry (some "p") (some "l") "u9" 0 emptyStore
      = ((200, EntryBody.ok "u9"),
          store_set emptyStore "u9"
            { plate := "p", parkingLot := "l", entryTime := 0 }) :=
  entry_succeeds_and_ids_unique.1 "p" "l" "u9" 0 emptyStore
    (by decide) (by decide)
